import Mathlib

set_option autoImplicit false

/-!
Shallow embedding of the UniversalTelegramExporter download core and proofs of the
specification claims about it.

Embedded source files:
- src/utils/state.py        (DownloadState)
- src/main.py               (can_download, get_media_type, download_media /
                             _download_media_internal retry loop, begin_import scan loop)
- src/utils/file_management.py (calculate_file_hash, manage_duplicate_file)
- src/utils/error_handler.py   (UserFriendlyError, ErrorHandler)
- src/utils/models.py          (DownloadSummary.get_success_rate)

Python ints are modeled as Lean Int, float delays/rates as ℚ, byte strings as lists
of naturals.  External effects (the network client, the file system, the sleep calls)
are modeled as explicit oracles / explicit state passed through the functions.
-/

/-- Session download state (src/utils/state.py, `class DownloadState`). -/
structure DownloadState where
  failed_ids : List Int := []
  downloaded_ids : List Int := []
  total_size_bytes : Int := 0
  deriving DecidableEq, Repr

/-- `DownloadState.mark_downloaded` (state.py lines 15-28): append the id and add the
file size only when the id is not already recorded. -/
def DownloadState.mark_downloaded (s : DownloadState) (message_id : Int) (file_size : Int) :
    DownloadState :=
  if message_id ∈ s.downloaded_ids then s
  else { s with downloaded_ids := s.downloaded_ids ++ [message_id],
                total_size_bytes := s.total_size_bytes + file_size }

/-- `DownloadState.mark_failed` (state.py lines 30-40): append the id when not present. -/
def DownloadState.mark_failed (s : DownloadState) (message_id : Int) : DownloadState :=
  if message_id ∈ s.failed_ids then s
  else { s with failed_ids := s.failed_ids ++ [message_id] }

/-- `DownloadState.get_retry_ids` (state.py lines 48-65):
`list(set(existing_retry_ids) - set(self.downloaded_ids)) + self.failed_ids`.
Python's `set` construction deduplicates `existing_retry_ids`; set difference keeps the
members not downloaded; the failed ids are concatenated. -/
def DownloadState.get_retry_ids (s : DownloadState) (existing_retry_ids : List Int) :
    List Int :=
  (existing_retry_ids.dedup.filter (fun x => decide (x ∉ s.downloaded_ids))) ++ s.failed_ids

/-- One recorded call against the state tracker, for reasoning about arbitrary
sequences of `mark_downloaded` / `mark_failed` operations. -/
inductive StateOp where
  | down (message_id : Int) (file_size : Int)
  | fail (message_id : Int)
  deriving DecidableEq, Repr

/-- Apply a sequence of mark operations in order. -/
def applyOps (ops : List StateOp) (s : DownloadState) : DownloadState :=
  ops.foldl
    (fun s op =>
      match op with
      | StateOp.down i n => s.mark_downloaded i n
      | StateOp.fail i => s.mark_failed i)
    s

/-- A Telegram message as far as the dispatcher's control flow observes it: its id.
(`message.id` is the only message datum the retry loop returns or records.) -/
structure Msg where
  id : Int
  deriving DecidableEq, Repr

/-- Result of the refetch call `client.get_messages(message.chat.id, ids=message.id)`
performed on a file-reference-expired error (main.py lines 436-445). -/
inductive RefetchRes where
  | raised          -- the refetch call itself raised an exception
  | empty           -- no message came back: keep the current message object
  | got (m : Msg)   -- a message came back and replaces the current one
  deriving DecidableEq, Repr

/-- Outcome of one iteration of the `try` body of `_download_media_internal`
(main.py lines 364-424), covering every exit of the body and every handled
exception class.  External behavior (classification result, client calls, the
file system) is an oracle supplying one such outcome per attempt. -/
inductive AttemptOutcome where
  | filtered                   -- no media type, or type not accepted: early return
  | noMediaObj                 -- media object missing: early return
  | formatRejected             -- `_can_download` is False: body completes, loop breaks
  | downloadedOk (size : Int)  -- file on disk after reconciliation: mark_downloaded, break
  | downloadedDup (size : Int) -- duplicate removed by reconciliation: mark_downloaded, break
  | downloadedNone             -- client returned no path: nothing recorded, break
  | fileRefExpired (r : RefetchRes)  -- FileReferenceExpiredError
  | timeout (jitter : ℚ)       -- TimeoutError, with the drawn `random.uniform(0, 1)` jitter
  | badRequest                 -- BadRequestError
  | unexpected                 -- any other exception (the bare `except Exception` arm)
  deriving DecidableEq, Repr

/-- `MAX_RETRIES` (main.py line 41). -/
def MAX_RETRIES : Nat := 3

/-- `INITIAL_RETRY_DELAY` (main.py line 42). -/
def INITIAL_RETRY_DELAY : ℚ := 5

/-- `MAX_RETRY_DELAY` (main.py line 43). -/
def MAX_RETRY_DELAY : ℚ := 300

/-- The timeout backoff formula (main.py line 454):
`min(MAX_RETRY_DELAY, (2 ** retry) * INITIAL_RETRY_DELAY + random.uniform(0, 1))`. -/
def backoff (retry : Nat) (jitter : ℚ) : ℚ :=
  min MAX_RETRY_DELAY ((2 ^ retry) * INITIAL_RETRY_DELAY + jitter)

/-- What one call of the dispatcher produces: the final state, the returned message id,
the backoff sleeps it performed (in order), and whether some exception arm recorded a
terminal failure via `state.mark_failed`. -/
structure RunResult where
  state : DownloadState
  ret : Int
  sleeps : List ℚ
  failedTerminally : Bool
  deriving DecidableEq, Repr

/-- The `for retry in range(MAX_RETRIES)` loop of `_download_media_internal`
(main.py lines 363-493).  `retry` is the current 0-based attempt index and `fuel` the
number of attempts left (`fuel = MAX_RETRIES - retry` at the top-level call), so the
source guard `retry < MAX_RETRIES - 1` is `1 ≤ fuel - 1`.  `events retry` is the
oracle giving that attempt's body outcome.  Each arm mirrors one source branch:
early `return message.id`, `break` followed by the final `return message.id`, the
refetch / backoff / mark-failed bookkeeping of the `except` arms, or falling off the
loop into the final `return message.id`. -/
def runAttempts (events : Nat → AttemptOutcome) (retry : Nat) (fuel : Nat) (msg : Msg)
    (st : DownloadState) (sleeps : List ℚ) (tf : Bool) : RunResult :=
  match fuel with
  | 0 => ⟨st, msg.id, sleeps, tf⟩
  | fuel' + 1 =>
    match events retry with
    | AttemptOutcome.filtered => ⟨st, msg.id, sleeps, tf⟩
    | AttemptOutcome.noMediaObj => ⟨st, msg.id, sleeps, tf⟩
    | AttemptOutcome.formatRejected => ⟨st, msg.id, sleeps, tf⟩
    | AttemptOutcome.downloadedOk size =>
      ⟨st.mark_downloaded msg.id size, msg.id, sleeps, tf⟩
    | AttemptOutcome.downloadedDup size =>
      ⟨st.mark_downloaded msg.id size, msg.id, sleeps, tf⟩
    | AttemptOutcome.downloadedNone => ⟨st, msg.id, sleeps, tf⟩
    | AttemptOutcome.fileRefExpired r =>
      if 0 < fuel' then
        match r with
        | RefetchRes.raised => ⟨st.mark_failed msg.id, msg.id, sleeps, true⟩
        | RefetchRes.empty => runAttempts events (retry + 1) fuel' msg st sleeps tf
        | RefetchRes.got m => runAttempts events (retry + 1) fuel' m st sleeps tf
      else
        runAttempts events (retry + 1) fuel' msg (st.mark_failed msg.id) sleeps true
    | AttemptOutcome.timeout j =>
      if 0 < fuel' then
        runAttempts events (retry + 1) fuel' msg st (sleeps ++ [backoff retry j]) tf
      else
        runAttempts events (retry + 1) fuel' msg (st.mark_failed msg.id) sleeps true
    | AttemptOutcome.badRequest => ⟨st.mark_failed msg.id, msg.id, sleeps, true⟩
    | AttemptOutcome.unexpected => ⟨st.mark_failed msg.id, msg.id, sleeps, true⟩

/-- `_download_media_internal` (main.py lines 353-493). -/
def download_media_internal (events : Nat → AttemptOutcome) (msg : Msg)
    (st : DownloadState) : RunResult :=
  runAttempts events 0 MAX_RETRIES msg st [] false

/-- `download_media` (main.py lines 288-350): the public entry only acquires the
concurrency semaphore around `_download_media_internal`, which does not change the
sequential result modeled here. -/
def download_media (events : Nat → AttemptOutcome) (msg : Msg) (st : DownloadState) :
    RunResult :=
  download_media_internal events msg st

/-- A message as the orchestrator's scan loop observes it: id and timestamp. -/
structure ScanMsg where
  id : Int
  date : Int
  deriving DecidableEq, Repr

/-- Python `max(message_ids)` over a batch (main.py line 565); every download returns
its message's id, so the maximum is over the batch's ids.  A dispatched batch is never
empty, so the `[]` arm is unreachable in the model. -/
def maxId : List Int → Int
  | [] => 0
  | x :: xs => xs.foldl max x

/-- `process_messages` (main.py lines 496-566) as the scan loop observes it: the
returned new cursor, the maximum id of the batch. -/
def process_messages_cursor (batch : List ScanMsg) : Int :=
  maxId (batch.map (fun m => m.id))

/-- The orchestrator's loop variables in `begin_import` (main.py lines 817-866),
plus the list of dispatched batches (observations of `process_messages` calls).
`downloadedCount` models `len(state.downloaded_ids)` under the scenario assumption
that every dispatched message downloads successfully. -/
structure ScanState where
  totalMessages : Nat
  skippedMessages : Nat
  paginationCount : Nat
  messagesList : List ScanMsg
  batches : List (List ScanMsg)
  lastReadMessageId : Int
  downloadedCount : Nat
  deriving DecidableEq, Repr

/-- The `async for message in messages_iter` body of `begin_import`
(main.py lines 834-866): count the message; skip it if past `end_date`; break if
before `start_date`; accumulate while `pagination_count != pagination_limit`;
otherwise dispatch the accumulated batch, reset the counter to zero, start the next
batch with the current message, and stop early when `max_messages` successes exist. -/
def scanLoop (end_date start_date : Option Int) (max_messages : Option Nat)
    (pagination_limit : Nat) : List ScanMsg → ScanState → ScanState
  | [], s => s
  | m :: rest, s =>
    let s1 := { s with totalMessages := s.totalMessages + 1 }
    if (match end_date with
        | some e => decide (e < m.date)
        | none => false) then
      scanLoop end_date start_date max_messages pagination_limit rest
        { s1 with skippedMessages := s1.skippedMessages + 1 }
    else if (match start_date with
        | some d => decide (m.date < d)
        | none => false) then
      s1
    else if s1.paginationCount ≠ pagination_limit then
      scanLoop end_date start_date max_messages pagination_limit rest
        { s1 with paginationCount := s1.paginationCount + 1,
                  messagesList := s1.messagesList ++ [m] }
    else
      let s2 := { s1 with batches := s1.batches ++ [s1.messagesList],
                          lastReadMessageId := process_messages_cursor s1.messagesList,
                          downloadedCount := s1.downloadedCount + s1.messagesList.length }
      if (match max_messages with
          | some k => decide (k ≤ s2.downloadedCount)
          | none => false) then
        s2
      else
        scanLoop end_date start_date max_messages pagination_limit rest
          { s2 with paginationCount := 0, messagesList := [m] }

/-- `begin_import`'s scan phase (main.py lines 817-880): run the scan loop from an
empty batch and the initial cursor, then drain any non-empty trailing batch
(`if messages_list:` after the loop). -/
def begin_import_scan (msgs : List ScanMsg) (pagination_limit : Nat)
    (end_date start_date : Option Int) (max_messages : Option Nat)
    (init_cursor : Int) : ScanState :=
  let s0 : ScanState := ⟨0, 0, 0, [], [], init_cursor, 0⟩
  let s := scanLoop end_date start_date max_messages pagination_limit msgs s0
  if s.messagesList.isEmpty then s
  else
    { s with batches := s.batches ++ [s.messagesList],
             lastReadMessageId := process_messages_cursor s.messagesList,
             downloadedCount := s.downloadedCount + s.messagesList.length }

/-- The 250-message scenario of claim C2: messages with ids 1..250, any timestamps
(no date filter is active; timestamps chosen as 0). -/
def scenarioMsgs : List ScanMsg :=
  (List.range 250).map (fun i => ⟨(i : Int) + 1, 0⟩)

/-- A value stored under a media-type key of the `file_formats` configuration mapping:
either an actual list of format strings, or any other YAML value (the
`not isinstance(allowed_formats, list)` case of main.py line 114). -/
inductive FormatVal where
  | strs (l : List String)
  | nonList
  deriving DecidableEq, Repr

/-- Python `file_format in allowed_formats` for `file_format : Optional[str]`:
`None` is never a member of a list of strings. -/
def format_matches (file_format : Option String) (allowed : List String) : Bool :=
  match file_format with
  | some f => allowed.contains f
  | none => false

/-- `_can_download` (main.py lines 78-119).  The configuration dict is modeled as an
association list (first binding wins, as in a dict each key occurs once). -/
def can_download (t : String) (file_formats : List (String × FormatVal))
    (file_format : Option String) : Bool :=
  if t ∈ (["audio", "document", "video"] : List String) then
    match file_formats.lookup t with
    | none => false
    | some FormatVal.nonList => false
    | some (FormatVal.strs allowed) =>
      if allowed = [] then false
      else if ¬ format_matches file_format allowed ∧ allowed.head? ≠ some "all" then false
      else true
  else true

/-- A document attribute as `get_media_type` inspects it: an optional boolean `voice`
field and an optional boolean `round_message` field (`hasattr(attr, "voice") and
isinstance(attr.voice, bool)` is `voice = some b`). -/
structure DocAttr where
  voice : Option Bool := none
  round_message : Option Bool := none
  deriving DecidableEq, Repr

/-- A message's media payload: a photo, a document with its attribute list, or some
other media kind (which `get_media_type` maps to `None`). -/
inductive MediaPayload where
  | photo
  | document (attrs : List DocAttr)
  | other
  deriving DecidableEq, Repr

/-- A message as the classifier observes it. -/
structure TMessage where
  media : Option MediaPayload
  deriving DecidableEq, Repr

/-- The attribute scan of `get_media_type` (main.py lines 279-284): per attribute, in
supplied order, the voice flag is consulted before the round flag; no flag on any
attribute yields "document". -/
def classify_attrs : List DocAttr → String
  | [] => "document"
  | a :: rest =>
    match a.voice with
    | some b => if b then "voice" else "audio"
    | none =>
      match a.round_message with
      | some b => if b then "video_note" else "video"
      | none => classify_attrs rest

/-- `get_media_type` (main.py lines 247-285). -/
def get_media_type (m : TMessage) : Option String :=
  match m.media with
  | none => none
  | some MediaPayload.photo => some "photo"
  | some (MediaPayload.document attrs) => some (classify_attrs attrs)
  | some MediaPayload.other => none

/-- File contents as a byte list. -/
abbrev FileBytes := List Nat

/-- A single download directory: a listing of file names with their contents.
`none` contents model a file the process cannot read (open/read raises IOError). -/
structure FSys where
  files : List (String × Option FileBytes)
  deriving DecidableEq, Repr

/-- `calculate_file_hash` (file_management.py lines 12-34): the MD5 digest fed in
4096-byte chunks equals the digest of the whole contents, so the digest is modeled by
the contents themselves (an abstract collision-free digest).  `none` models the
propagated IOError for a missing or unreadable file. -/
def calculate_file_hash (fs : FSys) (p : String) : Option FileBytes :=
  match fs.files.lookup p with
  | none => none
  | some none => none
  | some (some c) => some c

/-- Characters of a name up to (not including) its last "."-marked suffix:
no dot means no suffix, and a dot in first position (a hidden-file name) does not
count as starting a suffix. -/
def stemChars (s : List Char) : List Char :=
  match s.reverse.dropWhile (fun c => decide (c ≠ '.')) with
  | [] => s
  | _ :: rest => if rest = [] then s else rest.reverse

/-- `pathlib.Path(name).stem` for a bare file name. -/
def path_stem (s : String) : String :=
  String.mk (stemChars s.data)

/-- The characters before the first occurrence of `sep` (the whole list when `sep`
does not occur): Python `s.split(sep)[0]`. -/
def takeUntilSeq (sep : List Char) : List Char → List Char
  | [] => []
  | c :: rest =>
    if sep.isPrefixOf (c :: rest) then []
    else c :: takeUntilSeq sep rest

/-- `"".join(posix_path.stem.split("-copy")[0])` (file_management.py line 97): the
stem up to the first "-copy" occurrence. -/
def file_base_name (s : String) : String :=
  String.mk (takeUntilSeq "-copy".data (path_stem s).data)

/-- `glob.glob(f"{parent}/{base}*")` within one directory (file_management.py
lines 98-103): every listed name starting with `base`, in listing order.  The model
assumes `base` holds no glob metacharacters (the source escapes only brackets). -/
def glob_matches (fs : FSys) (base : String) : List String :=
  (fs.files.map Prod.fst).filter (fun n => base.data.isPrefixOf n.data)

/-- `os.remove` on the directory model. -/
def remove_file (fs : FSys) (p : String) : FSys :=
  ⟨fs.files.filter (fun e => decide (e.1 ≠ p))⟩

/-- The candidate loop of `manage_duplicate_file` (file_management.py lines 108-123):
hash each candidate, skipping those that cannot be read; on the first digest match
delete the newly written file and return the candidate's path. -/
def scan_duplicates (fs : FSys) (file_path : String) (h : FileBytes) :
    List String → FSys × String
  | [] => (fs, file_path)
  | c :: rest =>
    match calculate_file_hash fs c with
    | none => scan_duplicates fs file_path h rest
    | some h2 =>
      if h = h2 then (remove_file fs file_path, c)
      else scan_duplicates fs file_path h rest

/-- `manage_duplicate_file` (file_management.py lines 72-124), returning the possibly
changed directory and the resulting path. -/
def manage_duplicate_file (fs : FSys) (file_path : String) : FSys × String :=
  match calculate_file_hash fs file_path with
  | none => (fs, file_path)
  | some h =>
    let base := file_base_name file_path
    let old_files := (glob_matches fs base).filter (fun n => decide (n ≠ file_path))
    scan_duplicates fs file_path h old_files

/-- The closed error taxonomy (error_handler.py, `class UserFriendlyError`). -/
inductive UserFriendlyError where
  | FILE_REFERENCE_EXPIRED
  | TIMEOUT
  | BAD_REQUEST
  | UNAUTHORIZED
  | FILE_TOO_LARGE
  | NETWORK_ERROR
  | DIRECTORY_NOT_FOUND
  | CONFIG_INVALID
  | UNKNOWN_ERROR
  deriving DecidableEq, Repr

/-- `UserFriendlyError.get_severity` (error_handler.py lines 89-91), reading the
`severity` entry of each member's value dict. -/
def UserFriendlyError.get_severity : UserFriendlyError → String
  | UserFriendlyError.FILE_REFERENCE_EXPIRED => "WARNING"
  | UserFriendlyError.TIMEOUT => "WARNING"
  | UserFriendlyError.BAD_REQUEST => "ERROR"
  | UserFriendlyError.UNAUTHORIZED => "ERROR"
  | UserFriendlyError.FILE_TOO_LARGE => "ERROR"
  | UserFriendlyError.NETWORK_ERROR => "WARNING"
  | UserFriendlyError.DIRECTORY_NOT_FOUND => "ERROR"
  | UserFriendlyError.CONFIG_INVALID => "ERROR"
  | UserFriendlyError.UNKNOWN_ERROR => "ERROR"

/-- `UserFriendlyError.from_exception` (error_handler.py lines 93-121), keyed on
`type(exception).__name__`. -/
def UserFriendlyError.from_exception (exception_type : String) : UserFriendlyError :=
  if exception_type = "FileReferenceExpiredError" then
    UserFriendlyError.FILE_REFERENCE_EXPIRED
  else if exception_type = "TimeoutError" then UserFriendlyError.TIMEOUT
  else if exception_type = "BadRequestError" then UserFriendlyError.BAD_REQUEST
  else if exception_type = "AuthorizationError" then UserFriendlyError.UNAUTHORIZED
  else if exception_type = "FloodWaitError" then UserFriendlyError.TIMEOUT
  else if exception_type = "ConnectionError" then UserFriendlyError.NETWORK_ERROR
  else if exception_type = "OSError" then UserFriendlyError.DIRECTORY_NOT_FOUND
  else if exception_type = "ValueError" then UserFriendlyError.CONFIG_INVALID
  else UserFriendlyError.UNKNOWN_ERROR

/-- The error handler's counters (error_handler.py, `class ErrorHandler`). -/
structure ErrorHandler where
  error_count : Nat
  warnings_count : Nat
  deriving DecidableEq, Repr

/-- `ErrorHandler.handle_error` (error_handler.py lines 132-167).  The whole
severity bookkeeping sits under `if logger:`, so a call without a logger mutates
neither counter; `has_logger` models whether a logger was passed. -/
def ErrorHandler.handle_error (h : ErrorHandler) (exception_type : String)
    (has_logger : Bool) (critical : Bool) : ErrorHandler :=
  if has_logger then
    if critical ∨ (UserFriendlyError.from_exception exception_type).get_severity = "ERROR" then
      { h with error_count := h.error_count + 1 }
    else
      { h with warnings_count := h.warnings_count + 1 }
  else h

/-- Python `", ".join(parts)`. -/
def join_comma : List String → String
  | [] => ""
  | [s] => s
  | s :: rest => s ++ ", " ++ join_comma rest

/-- `ErrorHandler.get_summary` (error_handler.py lines 169-187). -/
def ErrorHandler.get_summary (h : ErrorHandler) : String :=
  if h.error_count = 0 ∧ h.warnings_count = 0 then
    "✅ No errors or warnings"
  else
    join_comma
      ((if 0 < h.error_count then
          ["❌ " ++ toString h.error_count ++ " error" ++
            (if h.error_count ≠ 1 then "s" else "")]
        else []) ++
        (if 0 < h.warnings_count then
          ["⚠️ " ++ toString h.warnings_count ++ " warning" ++
            (if h.warnings_count ≠ 1 then "s" else "")]
        else []))

/-- `DownloadSummary` (models.py lines 7-27). -/
structure DownloadSummary where
  total_messages : Int
  successful_downloads : Int
  failed_downloads : Int
  skipped_messages : Int
  total_size_bytes : Int
  duration_seconds : ℚ
  deriving DecidableEq, Repr

/-- Python true division, which raises ZeroDivisionError on a zero divisor: modeled
as `none` in that case. -/
def fallible_div (a b : ℚ) : Option ℚ :=
  if b = 0 then none else some (a / b)

/-- `DownloadSummary.get_success_rate` (models.py lines 48-61), with the division
kept fallible so that reaching it with a zero divisor would surface as `none`. -/
def DownloadSummary.get_success_rate (s : DownloadSummary) : Option ℚ :=
  let total_attempts : Int := s.successful_downloads + s.failed_downloads
  if total_attempts = 0 then some 0
  else
    (fallible_div (s.successful_downloads : ℚ) (total_attempts : ℚ)).map
      (fun r => r * 100)

theorem mark_downloaded_failed_ids (s : DownloadState) (i n : Int) :
    (s.mark_downloaded i n).failed_ids = s.failed_ids := by
  unfold DownloadState.mark_downloaded
  split <;> rfl

theorem mark_failed_downloaded_ids (s : DownloadState) (i : Int) :
    (s.mark_failed i).downloaded_ids = s.downloaded_ids := by
  unfold DownloadState.mark_failed
  split <;> rfl

theorem mark_downloaded_nodup (s : DownloadState) (i n : Int)
    (h : s.downloaded_ids.Nodup) : (s.mark_downloaded i n).downloaded_ids.Nodup := by
  unfold DownloadState.mark_downloaded
  split
  · exact h
  · next hni => simp [List.nodup_append, h, hni]

theorem mark_failed_nodup (s : DownloadState) (i : Int)
    (h : s.failed_ids.Nodup) : (s.mark_failed i).failed_ids.Nodup := by
  unfold DownloadState.mark_failed
  split
  · exact h
  · next hni => simp [List.nodup_append, h, hni]

theorem applyOps_nodup (ops : List StateOp) :
    ∀ s : DownloadState, s.downloaded_ids.Nodup → s.failed_ids.Nodup →
      (applyOps ops s).downloaded_ids.Nodup ∧ (applyOps ops s).failed_ids.Nodup := by
  induction ops with
  | nil => intro s h1 h2; exact ⟨h1, h2⟩
  | cons op rest ih =>
    intro s h1 h2
    cases op with
    | down i n =>
      have : applyOps (StateOp.down i n :: rest) s = applyOps rest (s.mark_downloaded i n) := rfl
      rw [this]
      exact ih _ (mark_downloaded_nodup s i n h1) (by rw [mark_downloaded_failed_ids]; exact h2)
    | fail i =>
      have : applyOps (StateOp.fail i :: rest) s = applyOps rest (s.mark_failed i) := rfl
      rw [this]
      exact ih _ (by rw [mark_failed_downloaded_ids]; exact h1) (mark_failed_nodup s i h2)

/-- Claim C3: for every previous retry list and every state, the derived retry list
equals, as a set, `(previous − downloaded) ∪ failed`; every failed id is in the
result; an id that was in the previous list, was downloaded this run and was not
marked failed is absent; and on previousRetry = [1,2,3], downloaded = [2],
failed = [4] the result is the set {1,3,4} (here literally the list [1,3,4]). -/
theorem get_retry_ids_spec :
    (∀ (s : DownloadState) (existing : List Int) (x : Int),
      x ∈ s.get_retry_ids existing ↔
        ((x ∈ existing ∧ x ∉ s.downloaded_ids) ∨ x ∈ s.failed_ids)) ∧
    (∀ (s : DownloadState) (existing : List Int) (x : Int),
      x ∈ s.failed_ids → x ∈ s.get_retry_ids existing) ∧
    (∀ (s : DownloadState) (existing : List Int) (x : Int),
      x ∈ existing → x ∈ s.downloaded_ids → x ∉ s.failed_ids →
        x ∉ s.get_retry_ids existing) ∧
    DownloadState.get_retry_ids ⟨[4], [2], 0⟩ [1, 2, 3] = [1, 3, 4] := by
  have main : ∀ (s : DownloadState) (existing : List Int) (x : Int),
      x ∈ s.get_retry_ids existing ↔
        ((x ∈ existing ∧ x ∉ s.downloaded_ids) ∨ x ∈ s.failed_ids) := by
    intro s existing x
    simp [DownloadState.get_retry_ids, List.mem_filter, List.mem_dedup]
  refine ⟨main, ?_, ?_, by decide⟩
  · intro s existing x hx
    exact (main s existing x).mpr (Or.inr hx)
  · intro s existing x h1 h2 h3 hmem
    rcases (main s existing x).mp hmem with ⟨-, h⟩ | h
    · exact h h2
    · exact h3 h

/-- Claim C3 witness: instances of the hypothesis-bearing conjuncts at the concrete
scenario previousRetry = [1,2,3], downloaded = [2], failed = [4]. -/
theorem get_retry_ids_spec_witness :
    (4 : Int) ∈ DownloadState.get_retry_ids ⟨[4], [2], 0⟩ [1, 2, 3] ∧
    (2 : Int) ∉ DownloadState.get_retry_ids ⟨[4], [2], 0⟩ [1, 2, 3] :=
  ⟨get_retry_ids_spec.2.1 ⟨[4], [2], 0⟩ [1, 2, 3] 4 (by decide),
   get_retry_ids_spec.2.2.1 ⟨[4], [2], 0⟩ [1, 2, 3] 2 (by decide) (by decide) (by decide)⟩

/-- Claim C4 counterexample: starting from the empty state, `mark_failed 5` followed
by `mark_downloaded 5 7` leaves the identifier 5 in `downloaded_ids` and
`failed_ids` simultaneously — `mark_downloaded` only consults `downloaded_ids` and
`mark_failed` only consults `failed_ids`, so the claimed disjointness invariant is
false. -/
theorem state_disjointness_cx :
    5 ∈ (applyOps [StateOp.fail 5, StateOp.down 5 7] ⟨[], [], 0⟩).downloaded_ids ∧
    5 ∈ (applyOps [StateOp.fail 5, StateOp.down 5 7] ⟨[], [], 0⟩).failed_ids := by
  decide

/-- Claim C4 (amended): for every sequence of mark operations from the empty state,
each of `downloaded_ids` and `failed_ids` separately keeps at most one copy of any
id, and marking an id already present in the same set is an exact no-op (so in
particular `total_size_bytes` is unchanged by a repeated `mark_downloaded`).  The
two sets need not be disjoint: an id failed earlier and downloaded later appears in
both. -/
theorem state_marks_idempotent :
    (∀ ops : List StateOp,
      (applyOps ops ⟨[], [], 0⟩).downloaded_ids.Nodup ∧
      (applyOps ops ⟨[], [], 0⟩).failed_ids.Nodup) ∧
    (∀ (s : DownloadState) (i n : Int), i ∈ s.downloaded_ids → s.mark_downloaded i n = s) ∧
    (∀ (s : DownloadState) (i : Int), i ∈ s.failed_ids → s.mark_failed i = s) := by
  refine ⟨fun ops => applyOps_nodup ops ⟨[], [], 0⟩ (by simp) (by simp), ?_, ?_⟩
  · intro s i n h
    unfold DownloadState.mark_downloaded
    exact if_pos h
  · intro s i h
    unfold DownloadState.mark_failed
    exact if_pos h

/-- Claim C4 witness: the amended theorem applied at concrete inputs — a repeated
`mark_downloaded` keeps one copy, and repeat marks on an id already present leave
the state (size included) unchanged. -/
theorem state_marks_idempotent_witness :
    (applyOps [StateOp.down 1 2, StateOp.down 1 2] ⟨[], [], 0⟩).downloaded_ids.Nodup ∧
    DownloadState.mark_downloaded ⟨[], [3], 10⟩ 3 5 = ⟨[], [3], 10⟩ ∧
    DownloadState.mark_failed ⟨[4], [], 0⟩ 4 = ⟨[4], [], 0⟩ :=
  ⟨(state_marks_idempotent.1 [StateOp.down 1 2, StateOp.down 1 2]).1,
   state_marks_idempotent.2.1 ⟨[], [3], 10⟩ 3 5 (by decide),
   state_marks_idempotent.2.2 ⟨[4], [], 0⟩ 4 (by decide)⟩

/-- Claim C5: the format check passes every kind outside {audio, document, video};
for a filterable kind it is true exactly when the policy binds the kind to a
non-empty list whose first element is the "all" sentinel or which literally contains
the detected format (a missing detected format never matches); and the three
concrete examples of the spec hold. -/
theorem can_download_spec :
    (∀ (t : String) (ff : List (String × FormatVal)) (fmt : Option String),
      t ∉ (["audio", "document", "video"] : List String) → can_download t ff fmt = true) ∧
    (∀ (t : String) (ff : List (String × FormatVal)) (fmt : Option String),
      t ∈ (["audio", "document", "video"] : List String) →
      (can_download t ff fmt = true ↔
        ∃ allowed, ff.lookup t = some (FormatVal.strs allowed) ∧ allowed ≠ [] ∧
          (allowed.head? = some "all" ∨ ∃ f, fmt = some f ∧ f ∈ allowed))) ∧
    can_download "video" [("video", FormatVal.strs ["all"])] (some "mkv") = true ∧
    can_download "audio" [("audio", FormatVal.strs ["mp3"])] (some "wav") = false ∧
    (∀ fmt, can_download "photo" [] fmt = true) := by
  refine ⟨?_, ?_, by decide, by decide, fun fmt => rfl⟩
  · intro t ff fmt ht
    unfold can_download
    rw [if_neg ht]
  · intro t ff fmt ht
    unfold can_download
    rw [if_pos ht]
    cases hL : ff.lookup t with
    | none => simp
    | some v =>
      cases v with
      | nonList => simp
      | strs allowed =>
        dsimp only
        by_cases hA : allowed = []
        · simp [hA]
        · rw [if_neg hA]
          constructor
          · intro h
            refine ⟨allowed, rfl, hA, ?_⟩
            by_cases hm : format_matches fmt allowed = true
            · right
              cases fmt with
              | none => simp [format_matches] at hm
              | some f =>
                refine ⟨f, rfl, ?_⟩
                simpa [format_matches] using hm
            · left
              by_contra hall
              rw [if_pos ⟨hm, hall⟩] at h
              exact Bool.false_ne_true h
          · rintro ⟨allowed2, hEq, -, hOr⟩
            have hAe : allowed2 = allowed := by
              injection hEq with h2
              injection h2 with h3
              exact h3.symm
            subst hAe
            rcases hOr with hall | ⟨f, rfl, hf⟩
            · rw [if_neg (fun hc => hc.2 hall)]
            · have hm : format_matches (some f) allowed2 = true := by
                simpa [format_matches] using hf
              rw [if_neg (fun hc => hc.1 hm)]

/-- Claim C5 witness: the hypothesis-bearing conjuncts applied at concrete inputs
(a non-filterable kind, and a filterable kind with an explicit allow-list hit). -/
theorem can_download_spec_witness :
    can_download "voice" [] none = true ∧
    can_download "audio" [("audio", FormatVal.strs ["mp3"])] (some "mp3") = true :=
  ⟨can_download_spec.1 "voice" [] none (by decide),
   (can_download_spec.2.1 "audio" [("audio", FormatVal.strs ["mp3"])] (some "mp3")
      (by decide)).mpr
     ⟨["mp3"], rfl, by decide, Or.inr ⟨"mp3", rfl, by decide⟩⟩⟩

/-- Claim C10: `get_success_rate` never fails: it is `some` on every summary, equal
to 0 when no download was attempted, and otherwise equal to
`successful / (successful + failed) * 100`; the fallible division inside is never
reached with a zero divisor. -/
theorem get_success_rate_total :
    ∀ s : DownloadSummary,
      (s.get_success_rate).isSome = true ∧
      (s.successful_downloads + s.failed_downloads = 0 → s.get_success_rate = some 0) ∧
      (s.successful_downloads + s.failed_downloads ≠ 0 →
        s.get_success_rate =
          some ((s.successful_downloads : ℚ) /
            ((s.successful_downloads : ℚ) + (s.failed_downloads : ℚ)) * 100)) := by
  intro s
  by_cases h : s.successful_downloads + s.failed_downloads = 0
  · refine ⟨?_, fun _ => ?_, fun hc => absurd h hc⟩ <;>
      simp [DownloadSummary.get_success_rate, h]
  · have h2 : ((s.successful_downloads : ℚ) + (s.failed_downloads : ℚ)) ≠ 0 := by
      intro hc
      apply h
      exact_mod_cast hc
    refine ⟨?_, fun hc => absurd hc h, fun _ => ?_⟩ <;>
      simp [DownloadSummary.get_success_rate, h, fallible_div, h2]

/-- Claim C10 witness: the theorem applied at an empty summary and at a summary with
9 successes and 1 failure. -/
theorem get_success_rate_total_witness :
    DownloadSummary.get_success_rate ⟨0, 0, 0, 0, 0, 0⟩ = some 0 ∧
    DownloadSummary.get_success_rate ⟨20, 9, 1, 4, 0, 0⟩ =
      some (((9 : Int) : ℚ) / (((9 : Int) : ℚ) + ((1 : Int) : ℚ)) * 100) :=
  ⟨(get_success_rate_total ⟨0, 0, 0, 0, 0, 0⟩).2.1 (by decide),
   (get_success_rate_total ⟨20, 9, 1, 4, 0, 0⟩).2.2 (by decide)⟩

theorem classify_attrs_append_flagless (pre : List DocAttr)
    (h : ∀ x ∈ pre, x.voice = none ∧ x.round_message = none) (l : List DocAttr) :
    classify_attrs (pre ++ l) = classify_attrs l := by
  induction pre with
  | nil => rfl
  | cons a rest ih =>
    have ha := h a (by simp)
    have htail : ∀ x ∈ rest, x.voice = none ∧ x.round_message = none :=
      fun x hx => h x (by simp [hx])
    calc classify_attrs ((a :: rest) ++ l)
        = classify_attrs (rest ++ l) := by
          simp [classify_attrs, ha.1, ha.2]
      _ = classify_attrs l := ih htail

/-- Claim C6: classification is a total function of the message structure: no media
yields absent; a photo payload yields "photo"; otherwise the attributes are scanned
in supplied order and the first attribute carrying a boolean voice flag decides
voice/audio — even when attributes carrying a round flag follow — while a first
round-flagged attribute decides video_note/video, and no flagged attribute at all
yields "document". -/
theorem get_media_type_spec :
    (get_media_type ⟨none⟩ = none) ∧
    (∀ m : TMessage, m.media = some MediaPayload.photo → get_media_type m = some "photo") ∧
    (∀ (pre rest : List DocAttr) (a : DocAttr) (b : Bool),
      (∀ x ∈ pre, x.voice = none ∧ x.round_message = none) → a.voice = some b →
      get_media_type ⟨some (MediaPayload.document (pre ++ a :: rest))⟩ =
        some (if b then "voice" else "audio")) ∧
    (∀ (pre rest : List DocAttr) (a : DocAttr) (b : Bool),
      (∀ x ∈ pre, x.voice = none ∧ x.round_message = none) → a.voice = none →
      a.round_message = some b →
      get_media_type ⟨some (MediaPayload.document (pre ++ a :: rest))⟩ =
        some (if b then "video_note" else "video")) ∧
    (∀ attrs : List DocAttr, (∀ x ∈ attrs, x.voice = none ∧ x.round_message = none) →
      get_media_type ⟨some (MediaPayload.document attrs)⟩ = some "document") := by
  refine ⟨rfl, ?_, ?_, ?_, ?_⟩
  · intro m hm
    simp [get_media_type, hm]
  · intro pre rest a b hpre hv
    simp only [get_media_type, classify_attrs_append_flagless pre hpre]
    simp [classify_attrs, hv]
  · intro pre rest a b hpre hv hr
    simp only [get_media_type, classify_attrs_append_flagless pre hpre]
    simp [classify_attrs, hv, hr]
  · intro attrs hattrs
    have h := classify_attrs_append_flagless attrs hattrs []
    rw [List.append_nil] at h
    simp only [get_media_type, h]
    rfl

/-- Claim C6 witness: the classifier theorem applied at concrete messages — a photo,
a voice-flagged attribute preceded by a flagless one and followed by a round-flagged
one, a first round-flagged attribute, and an all-flagless attribute list. -/
theorem get_media_type_spec_witness :
    get_media_type ⟨some MediaPayload.photo⟩ = some "photo" ∧
    get_media_type ⟨some (MediaPayload.document
      [⟨none, none⟩, ⟨some true, some true⟩, ⟨none, some false⟩])⟩ = some "voice" ∧
    get_media_type ⟨some (MediaPayload.document
      [⟨none, none⟩, ⟨none, some true⟩])⟩ = some "video_note" ∧
    get_media_type ⟨some (MediaPayload.document [⟨none, none⟩])⟩ = some "document" :=
  ⟨get_media_type_spec.2.1 ⟨some MediaPayload.photo⟩ rfl,
   get_media_type_spec.2.2.1 [⟨none, none⟩] [⟨none, some false⟩]
     ⟨some true, some true⟩ true (by decide) rfl,
   get_media_type_spec.2.2.2.1 [⟨none, none⟩] [] ⟨none, some true⟩ true
     (by decide) rfl rfl,
   get_media_type_spec.2.2.2.2 [⟨none, none⟩] (by decide)⟩

theorem mem_mark_failed_self (s : DownloadState) (i : Int) :
    i ∈ (s.mark_failed i).failed_ids := by
  unfold DownloadState.mark_failed
  split
  · assumption
  · simp

theorem runAttempts_spec (fuel : Nat) :
    ∀ (events : Nat → AttemptOutcome) (retry : Nat) (msg : Msg) (st : DownloadState)
      (sleeps : List ℚ) (tf : Bool),
      (∀ r m, events r = AttemptOutcome.fileRefExpired (RefetchRes.got m) → m.id = msg.id) →
      (tf = true → msg.id ∈ st.failed_ids) →
      (runAttempts events retry fuel msg st sleeps tf).ret = msg.id ∧
      ((runAttempts events retry fuel msg st sleeps tf).failedTerminally = true →
        msg.id ∈ (runAttempts events retry fuel msg st sleeps tf).state.failed_ids) := by
  induction fuel with
  | zero =>
    intro events retry msg st sleeps tf _ htf
    exact ⟨rfl, htf⟩
  | succ n ih =>
    intro events retry msg st sleeps tf hev htf
    cases hE : events retry with
    | filtered =>
      refine ⟨?_, fun h => ?_⟩
      · simp only [runAttempts, hE]
      · simp only [runAttempts, hE] at h ⊢
        exact htf h
    | noMediaObj =>
      refine ⟨?_, fun h => ?_⟩
      · simp only [runAttempts, hE]
      · simp only [runAttempts, hE] at h ⊢
        exact htf h
    | formatRejected =>
      refine ⟨?_, fun h => ?_⟩
      · simp only [runAttempts, hE]
      · simp only [runAttempts, hE] at h ⊢
        exact htf h
    | downloadedOk size =>
      refine ⟨?_, fun h => ?_⟩
      · simp only [runAttempts, hE]
      · simp only [runAttempts, hE, mark_downloaded_failed_ids] at h ⊢
        exact htf h
    | downloadedDup size =>
      refine ⟨?_, fun h => ?_⟩
      · simp only [runAttempts, hE]
      · simp only [runAttempts, hE, mark_downloaded_failed_ids] at h ⊢
        exact htf h
    | downloadedNone =>
      refine ⟨?_, fun h => ?_⟩
      · simp only [runAttempts, hE]
      · simp only [runAttempts, hE] at h ⊢
        exact htf h
    | fileRefExpired r =>
      by_cases hn : 0 < n
      · cases r with
        | raised =>
          refine ⟨?_, fun _ => ?_⟩
          · simp only [runAttempts, hE]
            rw [if_pos hn]
          · simp only [runAttempts, hE]
            rw [if_pos hn]
            exact mem_mark_failed_self st msg.id
        | empty =>
          have hrec := ih events (retry + 1) msg st sleeps tf hev htf
          refine ⟨?_, fun h => ?_⟩
          · simp only [runAttempts, hE]
            rw [if_pos hn]
            exact hrec.1
          · simp only [runAttempts, hE] at h ⊢
            rw [if_pos hn] at h ⊢
            exact hrec.2 h
        | got m =>
          have hm : m.id = msg.id := hev retry m hE
          have hrec := ih events (retry + 1) m st sleeps tf
            (fun r m' h' => (hev r m' h').trans hm.symm)
            (fun h => hm ▸ htf h)
          refine ⟨?_, fun h => ?_⟩
          · simp only [runAttempts, hE]
            rw [if_pos hn]
            exact hrec.1.trans hm
          · simp only [runAttempts, hE] at h ⊢
            rw [if_pos hn] at h ⊢
            have := hrec.2 h
            rwa [hm] at this
      · have hrec := ih events (retry + 1) msg (st.mark_failed msg.id) sleeps true hev
          (fun _ => mem_mark_failed_self st msg.id)
        refine ⟨?_, fun h => ?_⟩
        · simp only [runAttempts, hE]
          rw [if_neg hn]
          exact hrec.1
        · simp only [runAttempts, hE] at h ⊢
          rw [if_neg hn] at h ⊢
          exact hrec.2 h
    | timeout j =>
      by_cases hn : 0 < n
      · have hrec := ih events (retry + 1) msg st (sleeps ++ [backoff retry j]) tf hev htf
        refine ⟨?_, fun h => ?_⟩
        · simp only [runAttempts, hE]
          rw [if_pos hn]
          exact hrec.1
        · simp only [runAttempts, hE] at h ⊢
          rw [if_pos hn] at h ⊢
          exact hrec.2 h
      · have hrec := ih events (retry + 1) msg (st.mark_failed msg.id) sleeps true hev
          (fun _ => mem_mark_failed_self st msg.id)
        refine ⟨?_, fun h => ?_⟩
        · simp only [runAttempts, hE]
          rw [if_neg hn]
          exact hrec.1
        · simp only [runAttempts, hE] at h ⊢
          rw [if_neg hn] at h ⊢
          exact hrec.2 h
    | badRequest =>
      refine ⟨?_, fun _ => ?_⟩
      · simp only [runAttempts, hE]
      · simp only [runAttempts, hE]
        exact mem_mark_failed_self st msg.id
    | unexpected =>
      refine ⟨?_, fun _ => ?_⟩
      · simp only [runAttempts, hE]
      · simp only [runAttempts, hE]
        exact mem_mark_failed_self st msg.id

/-- Claim C1: whatever outcome each attempt's body has — success, filter or format
skip, expired file reference with any refetch result, timeout, bad request, or an
arbitrary unexpected exception — `download_media` returns the message's id (the
refetch, requesting `ids=message.id`, hands back a message carrying that id), the
model is a total function (no exception propagates to the caller), and whenever an
exception arm recorded a terminal failure the id is in `failed_ids` of the resulting
state. -/
theorem download_media_returns_id :
    ∀ (events : Nat → AttemptOutcome) (msg : Msg) (st : DownloadState),
      (∀ r m, events r = AttemptOutcome.fileRefExpired (RefetchRes.got m) → m.id = msg.id) →
      (download_media events msg st).ret = msg.id ∧
      ((download_media events msg st).failedTerminally = true →
        msg.id ∈ (download_media events msg st).state.failed_ids) := by
  intro events msg st hev
  exact runAttempts_spec MAX_RETRIES events 0 msg st [] false hev
    (fun h => absurd h Bool.false_ne_true)

/-- Claim C1 witness: the theorem applied to a message that hits the bad-request arm
immediately (a trace with no refetch events). -/
theorem download_media_returns_id_witness :
    (download_media (fun _ => AttemptOutcome.badRequest) ⟨5⟩ ⟨[], [], 0⟩).ret = 5 ∧
    ((download_media (fun _ => AttemptOutcome.badRequest) ⟨5⟩ ⟨[], [], 0⟩).failedTerminally
        = true →
      5 ∈ (download_media (fun _ => AttemptOutcome.badRequest) ⟨5⟩
        ⟨[], [], 0⟩).state.failed_ids) :=
  download_media_returns_id (fun _ => AttemptOutcome.badRequest) ⟨5⟩ ⟨[], [], 0⟩
    (fun _ _ h => AttemptOutcome.noConfusion h)

/-- Claim C7: in a run where every attempt times out, the dispatcher sleeps after
the first two attempts for `backoff 0 (j 0)` and `backoff 1 (j 1)` seconds — which,
for jitter below one second, equal `5 + j 0` and `10 + j 1` — these observed delays
are non-decreasing and each bounded by `MAX_RETRY_DELAY`, and after the last attempt
the message id is recorded in `failed_ids`. -/
theorem timeout_backoff_spec :
    ∀ (j : Nat → ℚ) (msg : Msg),
      (∀ i, 0 ≤ j i ∧ j i < 1) →
      (download_media (fun n => AttemptOutcome.timeout (j n)) msg ⟨[], [], 0⟩).sleeps =
        [backoff 0 (j 0), backoff 1 (j 1)] ∧
      (download_media (fun n => AttemptOutcome.timeout (j n)) msg ⟨[], [], 0⟩).sleeps =
        [5 + j 0, 10 + j 1] ∧
      List.Chain' (fun a b => a ≤ b)
        (download_media (fun n => AttemptOutcome.timeout (j n)) msg ⟨[], [], 0⟩).sleeps ∧
      (∀ w ∈ (download_media (fun n => AttemptOutcome.timeout (j n)) msg
          ⟨[], [], 0⟩).sleeps, w ≤ MAX_RETRY_DELAY) ∧
      msg.id ∈ (download_media (fun n => AttemptOutcome.timeout (j n)) msg
        ⟨[], [], 0⟩).state.failed_ids := by
  intro j msg hj
  have hrun : download_media (fun n => AttemptOutcome.timeout (j n)) msg ⟨[], [], 0⟩ =
      ⟨⟨[msg.id], [], 0⟩, msg.id, [backoff 0 (j 0), backoff 1 (j 1)], true⟩ := rfl
  have hb0 := (hj 0).2
  have hb1l := (hj 1).1
  have h0 : backoff 0 (j 0) = 5 + j 0 := by
    unfold backoff INITIAL_RETRY_DELAY MAX_RETRY_DELAY
    rw [min_eq_right (by norm_num; linarith)]
    norm_num
  have h1 : backoff 1 (j 1) = 10 + j 1 := by
    have := (hj 1).2
    unfold backoff INITIAL_RETRY_DELAY MAX_RETRY_DELAY
    rw [min_eq_right (by norm_num; linarith)]
    norm_num
  refine ⟨by rw [hrun], ?_, ?_, ?_, ?_⟩
  · rw [hrun, h0, h1]
  · rw [hrun]
    simp only [List.chain'_cons, List.chain'_singleton, and_true]
    rw [h0, h1]
    linarith
  · intro w hw
    rw [hrun] at hw
    simp only [List.mem_cons, List.not_mem_nil, or_false] at hw
    rcases hw with rfl | rfl
    · exact min_le_left _ _
    · exact min_le_left _ _
  · rw [hrun]
    simp

/-- Claim C7 witness: the theorem applied with jitter one half on every attempt and
message id 9. -/
theorem timeout_backoff_spec_witness :
    (download_media (fun _ => AttemptOutcome.timeout ((1 : ℚ)/2)) ⟨9⟩ ⟨[], [], 0⟩).sleeps =
      [5 + (1 : ℚ)/2, 10 + (1 : ℚ)/2] ∧
    (9 : Int) ∈ (download_media (fun _ => AttemptOutcome.timeout ((1 : ℚ)/2)) ⟨9⟩
      ⟨[], [], 0⟩).state.failed_ids :=
  ⟨(timeout_backoff_spec (fun _ => (1 : ℚ)/2) ⟨9⟩ (fun _ => by norm_num)).2.1,
   (timeout_backoff_spec (fun _ => (1 : ℚ)/2) ⟨9⟩ (fun _ => by norm_num)).2.2.2.2⟩

set_option maxRecDepth 10000 in
/-- Claim C2 counterexample: with 250 available messages (ids 1..250), pagination
limit 100, no date filters, no retry seed and initial cursor 0, the dispatched batch
sizes are 100, 101 and 49 — not 100, 100 and 50: after a dispatch the source resets
`pagination_count` to 0 while already seeding `messages_list` with the boundary
message, so every batch after the first accumulates one extra message. -/
theorem scan_batch_sizes_cx :
    (begin_import_scan scenarioMsgs 100 none none none 0).batches.map List.length =
      [100, 101, 49] ∧
    (begin_import_scan scenarioMsgs 100 none none none 0).batches.map List.length ≠
      [100, 100, 50] := by
  have h : (begin_import_scan scenarioMsgs 100 none none none 0).batches.map List.length =
      [100, 101, 49] := by decide
  refine ⟨h, ?_⟩
  rw [h]
  decide

set_option maxRecDepth 10000 in
/-- Claim C2 (amended): in the 250-message scenario the orchestrator dispatches
exactly 3 batches, of sizes 100, 101 and 49 (the third dispatched in the drain
step), the final persisted cursor equals 250, the id of the last message, and the
summary's total message count equals 250. -/
theorem scan_scenario_spec :
    (begin_import_scan scenarioMsgs 100 none none none 0).batches.map List.length =
      [100, 101, 49] ∧
    (begin_import_scan scenarioMsgs 100 none none none 0).lastReadMessageId = 250 ∧
    (begin_import_scan scenarioMsgs 100 none none none 0).totalMessages = 250 := by
  decide

theorem scan_duplicates_find (fs : FSys) (p : String) (h : FileBytes) :
    ∀ cands : List String,
      scan_duplicates fs p h cands =
        match cands.find? (fun n => calculate_file_hash fs n == some h) with
        | some c => (remove_file fs p, c)
        | none => (fs, p) := by
  intro cands
  induction cands with
  | nil => rfl
  | cons c rest ih =>
    cases hc : calculate_file_hash fs c with
    | none =>
      have h1 : scan_duplicates fs p h (c :: rest) = scan_duplicates fs p h rest := by
        simp only [scan_duplicates, hc]
      rw [h1, @List.find?_cons_of_neg _ (fun n => calculate_file_hash fs n == some h)
        c rest (by simp [hc]), ih]
    | some h2 =>
      by_cases he : h = h2
      · subst he
        have h1 : scan_duplicates fs p h (c :: rest) = (remove_file fs p, c) := by
          simp only [scan_duplicates, hc]
          simp
        rw [h1, @List.find?_cons_of_pos _ (fun n => calculate_file_hash fs n == some h)
          c rest (by simp [hc])]
      · have h1 : scan_duplicates fs p h (c :: rest) = scan_duplicates fs p h rest := by
          simp only [scan_duplicates, hc]
          rw [if_neg he]
        rw [h1, @List.find?_cons_of_neg _ (fun n => calculate_file_hash fs n == some h)
          c rest ?hne, ih]
        case hne =>
          simp only [Function.comp]
          simp [hc]
          exact fun hh => he hh.symm

/-- Claim C8 counterexample: the candidate set is computed with a glob prefix match
(`base*`), not by equality of stripped stems.  With a pre-existing file "ab.txt" and
a just-written byte-identical file "a.txt", reconciliation treats "ab.txt" as a
candidate (its stripped stem "ab" differs from "a"), deletes the new "a.txt" and
returns "ab.txt" — whereas the claim, whose candidate set would be empty here,
requires the original path back unchanged. -/
theorem manage_duplicate_prefix_cx :
    manage_duplicate_file ⟨[("ab.txt", some [1, 2]), ("a.txt", some [1, 2])]⟩ "a.txt" =
      (⟨[("ab.txt", some [1, 2])]⟩, "ab.txt") ∧
    file_base_name "ab.txt" ≠ file_base_name "a.txt" ∧
    ("ab.txt" : String) ≠ "a.txt" := by
  refine ⟨by decide, by decide, by decide⟩

/-- Claim C8 (amended): reconciliation hashes the just-written file (MD5 streamed in
4096-byte chunks, abstracted as the contents), enumerates the same-directory
siblings whose name starts with the base name stem stripped of any -copy{N} suffix
(a glob prefix match — a superset of the stem-equal siblings), excluding the file
itself; the first candidate hashing equal has the newly written file deleted and its
own path returned; read-failure candidates are skipped by the very same first-match
search; with no match the directory and path are unchanged.  Two byte-identical
files "name" and "name-copy1.ext" leave exactly one survivor, the returned path
"name". -/
theorem manage_duplicate_file_spec :
    (∀ (fs : FSys) (p : String) (h : FileBytes),
      calculate_file_hash fs p = some h →
      manage_duplicate_file fs p =
        match ((glob_matches fs (file_base_name p)).filter
            (fun n => decide (n ≠ p))).find?
            (fun n => calculate_file_hash fs n == some h) with
        | some c => (remove_file fs p, c)
        | none => (fs, p)) ∧
    (∀ bytes : FileBytes,
      manage_duplicate_file ⟨[("name", some bytes), ("name-copy1.ext", some bytes)]⟩
          "name-copy1.ext" =
        (⟨[("name", some bytes)]⟩, "name") ∧
      ((manage_duplicate_file ⟨[("name", some bytes), ("name-copy1.ext", some bytes)]⟩
          "name-copy1.ext").1.files.map Prod.fst = ["name"])) := by
  constructor
  · intro fs p h hh
    unfold manage_duplicate_file
    rw [hh]
    exact scan_duplicates_find fs p h _
  · intro bytes
    have step : manage_duplicate_file
        ⟨[("name", some bytes), ("name-copy1.ext", some bytes)]⟩ "name-copy1.ext" =
        if bytes = bytes then
          (remove_file ⟨[("name", some bytes), ("name-copy1.ext", some bytes)]⟩
            "name-copy1.ext", "name")
        else
          scan_duplicates ⟨[("name", some bytes), ("name-copy1.ext", some bytes)]⟩
            "name-copy1.ext" bytes [] := rfl
    rw [step, if_pos rfl]
    exact ⟨rfl, rfl⟩

/-- Claim C8 witness: the first conjunct of the amended theorem applied at a
directory where the only prefix-sharing candidate does not hash equal, leaving the
file and path unchanged. -/
theorem manage_duplicate_file_spec_witness :
    manage_duplicate_file ⟨[("a.txt", some [1]), ("ab.txt", some [2])]⟩ "a.txt" =
      (⟨[("a.txt", some [1]), ("ab.txt", some [2])]⟩, "a.txt") := by
  have h := manage_duplicate_file_spec.1 ⟨[("a.txt", some [1]), ("ab.txt", some [2])]⟩
    "a.txt" [1] rfl
  rw [h]
  rfl

theorem string_data_append (s t : String) : (s ++ t).data = s.data ++ t.data := rfl

theorem join_comma_head (x : String) (c : Char) (hx : x.data.head? = some c)
    (rest : List String) : (join_comma (x :: rest)).data.head? = some c := by
  cases rest with
  | nil => exact hx
  | cons a l =>
    show ((x ++ ", ") ++ join_comma (a :: l)).data.head? = some c
    rw [string_data_append, string_data_append]
    cases hxd : x.data with
    | nil => rw [hxd] at hx; exact absurd hx (by simp)
    | cons ch tl =>
      rw [hxd] at hx
      simpa using hx

theorem get_summary_sentinel_iff (h : ErrorHandler) :
    h.get_summary = "✅ No errors or warnings" ↔
      (h.error_count = 0 ∧ h.warnings_count = 0) := by
  constructor
  · intro hEq
    by_contra hne
    rw [ErrorHandler.get_summary, if_neg hne] at hEq
    have hhead := congrArg (fun s => s.data.head?) hEq
    by_cases he : 0 < h.error_count
    · rw [if_pos he] at hhead
      have hj := join_comma_head
        ("❌ " ++ toString h.error_count ++ " error" ++
          (if h.error_count ≠ 1 then "s" else "")) '❌' rfl
        (if 0 < h.warnings_count then
          ["⚠️ " ++ toString h.warnings_count ++ " warning" ++
            (if h.warnings_count ≠ 1 then "s" else "")]
        else [])
      simp only [List.singleton_append] at hhead
      rw [hj] at hhead
      exact absurd hhead (by decide)
    · have hw : 0 < h.warnings_count := by
        rcases Nat.eq_zero_or_pos h.error_count with h0 | h0
        · rcases Nat.eq_zero_or_pos h.warnings_count with w0 | w0
          · exact absurd ⟨h0, w0⟩ hne
          · exact w0
        · exact absurd h0 he
      rw [if_neg he, if_pos hw] at hhead
      have hj := join_comma_head
        ("⚠️ " ++ toString h.warnings_count ++ " warning" ++
          (if h.warnings_count ≠ 1 then "s" else "")) '⚠' rfl ([])
      simp only [List.nil_append] at hhead
      rw [hj] at hhead
      exact absurd hhead (by decide)
  · intro hz
    rw [ErrorHandler.get_summary, if_pos hz]

/-- Claim C9 counterexample: a handle call made without a logger increments neither
counter — in the source the whole severity bookkeeping sits under `if logger:` — so
"each call increments exactly one counter" is false for such a call. -/
theorem handle_error_no_logger_cx :
    ErrorHandler.handle_error ⟨0, 0⟩ "TimeoutError" false false = ⟨0, 0⟩ ∧
    (ErrorHandler.handle_error ⟨0, 0⟩ "TimeoutError" false false).error_count +
      (ErrorHandler.handle_error ⟨0, 0⟩ "TimeoutError" false false).warnings_count = 0 :=
  ⟨rfl, rfl⟩

/-- Claim C9 (amended): every handle call made with a logger increments exactly one
counter — the error counter when the critical flag is set or the classified record's
severity is ERROR, otherwise the warning counter — while a call without a logger is
a no-op on the counters; and the summary is the fixed "no errors" sentinel exactly
when both counters are zero, otherwise the comma-joined nonzero counts with correct
singular/plural forms. -/
theorem error_handler_spec :
    (∀ (h : ErrorHandler) (exc : String) (critical : Bool),
      ((ErrorHandler.handle_error h exc true critical).error_count +
          (ErrorHandler.handle_error h exc true critical).warnings_count =
        h.error_count + h.warnings_count + 1) ∧
      ((critical = true ∨ (UserFriendlyError.from_exception exc).get_severity = "ERROR") →
        (ErrorHandler.handle_error h exc true critical).error_count = h.error_count + 1 ∧
        (ErrorHandler.handle_error h exc true critical).warnings_count =
          h.warnings_count) ∧
      (critical = false → (UserFriendlyError.from_exception exc).get_severity ≠ "ERROR" →
        (ErrorHandler.handle_error h exc true critical).warnings_count =
            h.warnings_count + 1 ∧
          (ErrorHandler.handle_error h exc true critical).error_count = h.error_count)) ∧
    (∀ (h : ErrorHandler) (exc : String) (critical : Bool),
      ErrorHandler.handle_error h exc false critical = h) ∧
    (∀ h : ErrorHandler,
      h.get_summary = "✅ No errors or warnings" ↔
        (h.error_count = 0 ∧ h.warnings_count = 0)) ∧
    ErrorHandler.get_summary ⟨1, 2⟩ = "❌ 1 error, ⚠️ 2 warnings" ∧
    ErrorHandler.get_summary ⟨2, 1⟩ = "❌ 2 errors, ⚠️ 1 warning" ∧
    ErrorHandler.get_summary ⟨0, 3⟩ = "⚠️ 3 warnings" := by
  refine ⟨?_, fun h exc critical => rfl, get_summary_sentinel_iff, rfl, rfl, rfl⟩
  intro h exc critical
  by_cases hcond :
      (critical = true ∨ (UserFriendlyError.from_exception exc).get_severity = "ERROR")
  · have hstep : ErrorHandler.handle_error h exc true critical =
        { h with error_count := h.error_count + 1 } := by
      unfold ErrorHandler.handle_error
      rw [if_pos rfl, if_pos hcond]
    rw [hstep]
    refine ⟨?_, fun _ => ⟨rfl, rfl⟩, fun hcf hcs => ?_⟩
    · show h.error_count + 1 + h.warnings_count = h.error_count + h.warnings_count + 1
      omega
    rcases hcond with h1 | h2
    · rw [hcf] at h1
      exact absurd h1 (by decide)
    · exact absurd h2 hcs
  · have hstep : ErrorHandler.handle_error h exc true critical =
        { h with warnings_count := h.warnings_count + 1 } := by
      unfold ErrorHandler.handle_error
      rw [if_pos rfl, if_neg hcond]
    rw [hstep]
    refine ⟨?_, fun hc => absurd hc hcond, fun _ _ => ⟨rfl, rfl⟩⟩
    show h.error_count + (h.warnings_count + 1) = h.error_count + h.warnings_count + 1
    omega

/-- Claim C9 witness: the amended theorem applied at concrete calls — a bad-request
(ERROR severity) call with a logger, a timeout (WARNING severity) call with a
logger, and the empty handler's sentinel summary. -/
theorem error_handler_spec_witness :
    (ErrorHandler.handle_error ⟨0, 0⟩ "BadRequestError" true false).error_count = 0 + 1 ∧
    (ErrorHandler.handle_error ⟨0, 0⟩ "TimeoutError" true false).warnings_count = 0 + 1 ∧
    ErrorHandler.get_summary ⟨0, 0⟩ = "✅ No errors or warnings" :=
  ⟨((error_handler_spec.1 ⟨0, 0⟩ "BadRequestError" false).2.1 (Or.inr rfl)).1,
   ((error_handler_spec.1 ⟨0, 0⟩ "TimeoutError" false).2.2 rfl (by decide)).1,
   (error_handler_spec.2.2.1 ⟨0, 0⟩).mpr ⟨rfl, rfl⟩⟩
